import Mathlib

/-!
Verification of the screen-share source-selection and IPC-validation core of
the ms-wrappers desktop shell.

The development shallowly embeds:
* the channel allowlist and `validateIpcChannel` from
  `src/source-selector/preload.js`;
* the `ipcMain.on` validation wrapper from `src/main.js`;
* the `IPCRateLimiter` from the main-process entry revision (unnamed part);
* the `StreamSelector` orchestrator from `src/display-capture/index.js`.
  That file contains two concatenated revisions of the class (an older one and
  a newer one with correlation-id logging); they are modelled as two variants
  of one event-driven state machine, differing exactly where the source
  differs (the picker `closed` handler).
-/

namespace MsWrappers

/-! ## Channel allowlist and payload validator (src/source-selector/preload.js) -/

/-- The literal contents of the `allowedChannels` set, in source order
(the source lists `close-preview-window` three times; a JS `Set` deduplicates,
and `List.contains` membership agrees with `Set.has`). -/
def allowedChannels : List String :=
  [ "config-file-changed",
    "get-config",
    "get-system-idle-state",
    "get-app-version",
    "get-zoom-level",
    "save-zoom-level",
    "desktop-capturer-get-sources",
    "choose-desktop-media",
    "cancel-desktop-media",
    "trigger-screen-share",
    "screen-sharing-started",
    "screen-sharing-stopped",
    "screen-sharing-source-selected",
    "get-screen-sharing-status",
    "get-screen-share-stream",
    "get-screen-share-screen",
    "resize-preview-window",
    "minimize-preview-window",
    "close-preview-window",
    "close-preview-window",
    "close-preview-window",
    "stop-screen-sharing-from-thumbnail",
    "source-selected",
    "selection-cancelled",
    "play-notification-sound",
    "show-notification",
    "user-status-changed",
    "set-badge-count",
    "tray-update",
    "incoming-call-created",
    "incoming-call-ended",
    "incoming-call-action",
    "call-connected",
    "call-disconnected",
    "submitForm",
    "get-custom-bg-list",
    "offline-retry",
    "stop-sharing" ]

/-- An IPC payload as seen by `validateIpcChannel`: JS `null`/absent, a
non-object primitive, or an object modelled as its own-property list. -/
inductive Payload where
  | null : Payload
  | prim (s : String) : Payload
  | obj (props : List (String × String)) : Payload
deriving DecidableEq, Repr

/-- The `dangerousProps` array of `validateIpcChannel`, in source order. -/
def dangerousProps : List String := ["__proto__", "constructor", "prototype"]

/-- The `forEach` loop deleting each dangerous own property: removing every
entry whose key is one of `dangerousProps`. -/
def stripDangerous (props : List (String × String)) : List (String × String) :=
  props.filter (fun kv => !(dangerousProps.contains kv.fst))

/-- `validateIpcChannel(channel, payload)`.  The JS function mutates the
payload in place, so the embedding returns the boolean result together with
the payload as it stands after the call.  Faithful control flow: an unknown
channel returns `false` immediately, before the sanitization block. -/
def validateIpcChannel (channel : String) (payload : Payload) : Bool × Payload :=
  if !(allowedChannels.contains channel) then
    (false, payload)
  else
    match payload with
    | Payload.obj props => (true, Payload.obj (stripDangerous props))
    | p => (true, p)

/-- The `ipcMain.on` validation wrapper of `src/main.js` (lines 64-72): the
registered handler runs only when `validateIpcChannel` returns true, and it
receives the (possibly sanitized) payload; otherwise the wrapper returns
without invoking it. -/
def wrappedOn {α : Type} (handler : Payload → α) (channel : String)
    (payload : Payload) : Option α :=
  let v := validateIpcChannel channel payload
  if v.fst then some (handler v.snd) else none

/-! ## IPCRateLimiter (main-process entry revision, unnamed part 006) -/

/-- One entry of the limiter requests map: count and resetTime. -/
structure RateRecord where
  count : Nat
  resetTime : Nat
deriving DecidableEq, Repr

/-- Lookup in the `requests` map, modelled as an association list. -/
def alistGet (k : String) : List (String × RateRecord) → Option RateRecord
  | [] => none
  | kv :: rest => if kv.fst = k then some kv.snd else alistGet k rest

/-- `Map.set` / in-place record mutation: replace the entry for `k`, or append
a fresh one. -/
def alistSet (k : String) (v : RateRecord) :
    List (String × RateRecord) → List (String × RateRecord)
  | [] => [(k, v)]
  | kv :: rest => if kv.fst = k then (k, v) :: rest else kv :: alistSet k v rest

/-- The `IPCRateLimiter` state: the `requests` map plus the constructor
constants `windowLimit = 100` and `windowMs = 60000`. -/
structure IPCRateLimiter where
  requests : List (String × RateRecord)
  windowLimit : Nat
  windowMs : Nat
deriving DecidableEq, Repr

/-- The key string built by `isAllowed`: a template literal joining the
numeric sender id and the channel with a hyphen. -/
def rateKey (senderId : Nat) (channel : String) : String :=
  toString senderId ++ "-" ++ channel

/-- `IPCRateLimiter.isAllowed(senderId, channel)`, with `Date.now()` made an
explicit argument.  Returns the boolean and the updated limiter state. -/
def IPCRateLimiter.isAllowed (rl : IPCRateLimiter) (now : Nat) (senderId : Nat)
    (channel : String) : Bool × IPCRateLimiter :=
  let key := rateKey senderId channel
  match alistGet key rl.requests with
  | none =>
      (true, { rl with requests := alistSet key ⟨1, now + rl.windowMs⟩ rl.requests })
  | some record =>
      if record.resetTime < now then
        (true, { rl with requests := alistSet key ⟨1, now + rl.windowMs⟩ rl.requests })
      else if rl.windowLimit ≤ record.count then
        (false, rl)
      else
        (true, { rl with requests := alistSet key ⟨record.count + 1, record.resetTime⟩ rl.requests })

/-- A sequence of `isAllowed` calls for one fixed sender/channel pair, at the
given timestamps, threading the limiter state and collecting the results. -/
def runCalls (senderId : Nat) (channel : String) :
    IPCRateLimiter → List Nat → List Bool × IPCRateLimiter
  | rl, [] => ([], rl)
  | rl, t :: ts =>
      let r := rl.isAllowed t senderId channel
      let rest := runCalls senderId channel r.snd ts
      (r.fst :: rest.fst, rest.snd)

/-! ## StreamSelector orchestrator (src/display-capture/index.js)

The file holds two concatenated revisions of the class.  `Variant.v1` is the
first (lines 1-193), `Variant.v2` the second (lines 194-391).  Their
`handleSelection`, `show`, `cancel` bodies agree up to logging; the picker
window `closed` handler differs: v1 only nulls the window reference, v2 also
resolves a still-pending callback with null. -/

/-- A `DesktopCapturerSource` as used by the orchestrator. -/
structure Source where
  id : String
  name : String
  display_id : String
  thumbnail : String
  appIcon : Option String
deriving DecidableEq, Repr

/-- The serializable object the picker renderer sends on `source-selected`
(id, name, display_id, appIcon; the thumbnail is deliberately dropped). -/
structure SerializableSource where
  id : String
  name : String
  display_id : String
  appIcon : Option String
deriving DecidableEq, Repr

/-- The picker `BrowserWindow`: all the orchestrator inspects about it is
whether it has been destroyed (`isDestroyed()`). -/
structure Win where
  destroyed : Bool
deriving DecidableEq, Repr

/-- `BrowserWindow.close()`: throws on a destroyed window, otherwise requests
closing (the `closed` event arrives later as a separate event). -/
def winClose (w : Win) : Except String Win :=
  if w.destroyed then Except.error "Object has been destroyed" else Except.ok w

/-- The guarded close in `handleSelection`:
`if (this.pickerWindow && !this.pickerWindow.isDestroyed()) this.pickerWindow.close()`. -/
def closePickerChecked : Option Win → Except String (Option Win)
  | some w => if !w.destroyed then (winClose w).map some else Except.ok (some w)
  | none => Except.ok none

/-- What the callback of the caller receives: JS `null`, the raw incoming IPC
object, or an authoritative catalog entry. -/
inductive CallbackArg where
  | nullArg : CallbackArg
  | fromIpc (s : SerializableSource) : CallbackArg
  | fromCatalog (s : Source) : CallbackArg
deriving DecidableEq, Repr

/-- Orchestrator state for one `StreamSelector` instance.  Callbacks are
identified by numeric tokens.  `activeIsThis` models whether the module-level
`activeStreamSelector` variable points at this instance.  `fetching` counts
`desktopCapturer.getSources` calls whose `await` has not yet resumed (the
suspended continuation of `show`). -/
structure SelState where
  pickerWindow : Option Win
  currentCallback : Option Nat
  sources : List Source
  activeIsThis : Bool
  fetching : Nat
deriving DecidableEq, Repr

/-- A record of one callback invocation: which callback ran, with which
argument, and the orchestrator state at the moment `callback(selectedSource)`
executes (after the code has cleared `currentCallback`, cleared
`activeStreamSelector`, and requested the picker close). -/
structure Invocation where
  cb : Nat
  arg : CallbackArg
  atState : SelState
deriving DecidableEq, Repr

/-- The two revisions of the class present in the source file. -/
inductive Variant where
  | v1 : Variant
  | v2 : Variant
deriving DecidableEq, Repr

/-- The mapping step at the top of `handleSelection`: a null selection stays
null; otherwise `this.sources.find(source => source.id === selectedSource.id)`
replaces the incoming object when it hits, and the incoming object is kept
as-is when it misses (only a warning is logged). -/
def mapSelection (sources : List Source) : Option SerializableSource → CallbackArg
  | none => CallbackArg.nullArg
  | some sel =>
      match sources.find? (fun s => s.id == sel.id) with
      | some orig => CallbackArg.fromCatalog orig
      | none => CallbackArg.fromIpc sel

/-- The state `handleSelection` establishes before invoking the callback:
`currentCallback` nulled, `activeStreamSelector` cleared when it pointed at
this instance (hence false in this single-instance model). -/
def clearState (st : SelState) : SelState :=
  { st with currentCallback := none, activeIsThis := false }

/-- `handleSelection(selectedSource)` (identical in both revisions up to
logging): map the selection, and if a callback is pending, clear the pending
state, close the picker under the destroyed-guard, then invoke the callback.
Returns the new state and the invocations performed. -/
def handleSelectionE (st : SelState) (sel : Option SerializableSource) :
    Except String (SelState × List Invocation) :=
  let arg := mapSelection st.sources sel
  match st.currentCallback with
  | some cb =>
      match closePickerChecked st.pickerWindow with
      | Except.error e => Except.error e
      | Except.ok pw =>
          let stClear : SelState :=
            { st with currentCallback := none, activeIsThis := false, pickerWindow := pw }
          Except.ok (stClear, [⟨cb, arg, stClear⟩])
  | none => Except.ok (st, [])

/-- `cancel()`: `this.handleSelection(null)`. -/
def cancelE (st : SelState) : Except String (SelState × List Invocation) :=
  handleSelectionE st none

/-- The external events the orchestrator reacts to: a `show(callback)` call,
resolution or rejection of the awaited `getSources`, the global IPC handlers
for `source-selected` and `selection-cancelled`, the `closed`
event, and a direct `cancel()` call. -/
inductive Ev where
  | showCall (cb : Nat) : Ev
  | fetchOk (srcs : List Source) : Ev
  | fetchErr : Ev
  | msgSourceSelected (sel : SerializableSource) : Ev
  | msgSelectionCancelled : Ev
  | closedEvt : Ev
  | cancelCall : Ev
deriving DecidableEq, Repr

/-- One event step of the orchestrator.  `fetchOk`/`fetchErr` with no pending
fetch cannot occur and are no-ops.  The IPC message handlers dispatch through
the module-level `activeStreamSelector` (both revisions reduce to a no-op when
it is unset: v2 checks it, v1 catches the resulting TypeError). -/
def step (v : Variant) (st : SelState) (e : Ev) :
    Except String (SelState × List Invocation) :=
  match e with
  | Ev.showCall cb =>
      match st.pickerWindow with
      | some _ => Except.ok (st, [])
      | none =>
          Except.ok ({ st with currentCallback := some cb, activeIsThis := true,
                               fetching := st.fetching + 1 }, [])
  | Ev.fetchOk srcs =>
      if st.fetching = 0 then Except.ok (st, [])
      else
        let st1 := { st with fetching := st.fetching - 1, sources := srcs }
        if srcs.isEmpty then handleSelectionE st1 none
        else Except.ok ({ st1 with pickerWindow := some ⟨false⟩ }, [])
  | Ev.fetchErr =>
      if st.fetching = 0 then Except.ok (st, [])
      else handleSelectionE { st with fetching := st.fetching - 1 } none
  | Ev.msgSourceSelected sel =>
      if st.activeIsThis then handleSelectionE st (some sel) else Except.ok (st, [])
  | Ev.msgSelectionCancelled =>
      if st.activeIsThis then handleSelectionE st none else Except.ok (st, [])
  | Ev.closedEvt =>
      match st.pickerWindow with
      | none => Except.ok (st, [])
      | some _ =>
          let st1 := { st with pickerWindow := none }
          match v with
          | Variant.v1 => Except.ok (st1, [])
          | Variant.v2 =>
              match st1.currentCallback with
              | some _ => handleSelectionE st1 none
              | none => Except.ok (st1, [])
  | Ev.cancelCall => cancelE st

/-- Run a trace of events from a state, collecting all callback invocations. -/
def runE (v : Variant) : SelState → List Ev → Except String (SelState × List Invocation)
  | st, [] => Except.ok (st, [])
  | st, e :: es =>
      match step v st e with
      | Except.error err => Except.error err
      | Except.ok (st1, outs) =>
          match runE v st1 es with
          | Except.error err => Except.error err
          | Except.ok (st2, outs2) => Except.ok (st2, outs ++ outs2)

/-- The constructor state of a fresh `StreamSelector`. -/
def initState : SelState := ⟨none, none, [], false, 0⟩

/-- Observable outcome of a trace from the fresh state: whether a callback is
still registered, and the (callback, argument) pairs invoked, in order. -/
def runOutcomes (v : Variant) (tr : List Ev) :
    Option (Option Nat × List (Nat × CallbackArg)) :=
  match runE v initState tr with
  | Except.ok (st, outs) => some (st.currentCallback, outs.map (fun i => (i.cb, i.arg)))
  | Except.error _ => none

/-- A concrete catalog entry used in concrete runs. -/
def sampleScreen : Source := ⟨"screen:0", "Screen 1", "0", "thumb0", none⟩

/-- A concrete incoming selection whose id is not in the catalog. -/
def badSel : SerializableSource := ⟨"screen:99", "Ghost", "99", none⟩

/-- The nine channel names of the external-interface table (spec section 6),
in table order. -/
def interfaceTableChannels : List String :=
  [ "sources-available",
    "source-selected",
    "selection-cancelled",
    "trigger-screen-share",
    "screen-sharing-status-changed",
    "screen-sharing-source-selected",
    "get-screen-sharing-status",
    "get-screen-share-stream",
    "get-screen-share-screen" ]

/-- A concrete object payload carrying a dangerous own property. -/
def pollutedPayload : Payload :=
  Payload.obj [("__proto__", "polluted"), ("data", "x")]

/-! ## Helper lemmas -/

/-- The destroyed-guard makes the picker close total: it always succeeds and
leaves the window reference unchanged (the `closed` event, which nulls it,
arrives later). -/
theorem closePickerChecked_eq (pw : Option Win) :
    closePickerChecked pw = Except.ok pw := by
  cases pw with
  | none => rfl
  | some w => cases h : w.destroyed <;> simp [closePickerChecked, winClose, h, Except.map]

/-- `handleSelection` with a pending callback: it clears the pending state and
performs exactly one invocation, recorded at the cleared state. -/
theorem handleSelectionE_pending (st : SelState) (sel : Option SerializableSource)
    (cb : Nat) (hcb : st.currentCallback = some cb) :
    handleSelectionE st sel
      = Except.ok (clearState st, [⟨cb, mapSelection st.sources sel, clearState st⟩]) := by
  unfold handleSelectionE
  rw [hcb, closePickerChecked_eq]
  rfl

/-- `handleSelection` with no pending callback: no invocation, state kept. -/
theorem handleSelectionE_idle (st : SelState) (sel : Option SerializableSource)
    (hcb : st.currentCallback = none) :
    handleSelectionE st sel = Except.ok (st, []) := by
  unfold handleSelectionE
  rw [hcb]

/-! ## Claim C1 -/

/-- C1 counterexample: in a complete v2 flow whose catalog holds only
`screen:0`, an incoming selection with the unknown id `screen:99` is delivered
to the callback as the raw incoming object, not as a null result — refuting
the claim that `handleSelection` resolves null and never forwards an
unverified object. -/
theorem C1_counterexample :
    runOutcomes Variant.v2
        [Ev.showCall 0, Ev.fetchOk [sampleScreen], Ev.msgSourceSelected badSel]
      = some (none, [(0, CallbackArg.fromIpc badSel)]) := rfl

/-- C1 amended: when the incoming id misses the catalog, `handleSelection`
resolves the pending callback with the incoming (unverified) object unchanged,
after clearing the pending state; it substitutes the authoritative catalog
entry only when the id matches. -/
theorem C1_holds (st : SelState) (cb : Nat) (sel : SerializableSource)
    (hcb : st.currentCallback = some cb)
    (hmiss : st.sources.find? (fun s => s.id == sel.id) = none) :
    handleSelectionE st (some sel)
      = Except.ok (clearState st, [⟨cb, CallbackArg.fromIpc sel, clearState st⟩]) := by
  rw [handleSelectionE_pending st (some sel) cb hcb]
  simp [mapSelection, hmiss]

/-- C1 witness: the amended statement at a concrete pending state. -/
theorem C1_witness :
    ((⟨some ⟨false⟩, some 0, [sampleScreen], true, 0⟩ : SelState).sources.find?
        (fun s => s.id == badSel.id) = none)
    ∧ handleSelectionE ⟨some ⟨false⟩, some 0, [sampleScreen], true, 0⟩ (some badSel)
        = Except.ok (clearState ⟨some ⟨false⟩, some 0, [sampleScreen], true, 0⟩,
            [⟨0, CallbackArg.fromIpc badSel,
               clearState ⟨some ⟨false⟩, some 0, [sampleScreen], true, 0⟩⟩]) :=
  ⟨rfl, C1_holds ⟨some ⟨false⟩, some 0, [sampleScreen], true, 0⟩ 0 badSel rfl rfl⟩

/-! ## Claim C2 -/

/-- C2: on the trace show, fetch succeeds with one source, picker window
closed without any confirm or cancel message, the first revision never invokes
the callback (zero invocations, `currentCallback` still registered), while the
second revision resolves it exactly once with null.  The first revision thus
violates the exactly-once guarantee; the second revision implements it. -/
theorem C2_bug_eval :
    runOutcomes Variant.v1 [Ev.showCall 0, Ev.fetchOk [sampleScreen], Ev.closedEvt]
      = some (some 0, [])
    ∧ runOutcomes Variant.v2 [Ev.showCall 0, Ev.fetchOk [sampleScreen], Ev.closedEvt]
      = some (none, [(0, CallbackArg.nullArg)]) :=
  ⟨rfl, rfl⟩

/-! ## Claim C3 -/

/-- C3 counterexample: `sources-available` is named in the external-interface
table but is not a member of the static `allowedChannels` set. -/
theorem C3_counterexample :
    "sources-available" ∈ interfaceTableChannels
    ∧ allowedChannels.contains "sources-available" = false := by
  exact ⟨by decide, rfl⟩

/-- C3 amended: of the nine channels in the external-interface table, exactly
seven are members of `allowedChannels`; `sources-available` and
`screen-sharing-status-changed` are not members. -/
theorem C3_holds :
    interfaceTableChannels.filter (fun c => allowedChannels.contains c)
      = [ "source-selected", "selection-cancelled", "trigger-screen-share",
          "screen-sharing-source-selected", "get-screen-sharing-status",
          "get-screen-share-stream", "get-screen-share-screen" ]
    ∧ interfaceTableChannels.filter (fun c => !(allowedChannels.contains c))
      = [ "sources-available", "screen-sharing-status-changed" ] :=
  ⟨rfl, rfl⟩

/-! ## Claim C4 -/

/-- C4 counterexample: for the non-allowlisted channel `evil-channel` and a
payload with a dangerous own property, `validateIpcChannel` returns false with
the payload untouched — the sanitizing mutation does NOT occur on the
invalid-channel path, refuting the claim. -/
theorem C4_counterexample :
    allowedChannels.contains "evil-channel" = false
    ∧ validateIpcChannel "evil-channel" pollutedPayload
        = (false, Payload.obj [("__proto__", "polluted"), ("data", "x")]) :=
  ⟨rfl, rfl⟩

/-- C4 amended: the boolean result of `validateIpcChannel` depends only on
channel membership; the dangerous own properties are stripped exactly when the
channel IS in the allowlist, and the payload is returned unchanged when it is
not (the function returns before the sanitization block). -/
theorem C4_holds (channel : String) (props : List (String × String)) :
    ((validateIpcChannel channel (Payload.obj props)).fst = allowedChannels.contains channel)
    ∧ (allowedChannels.contains channel = true →
        (validateIpcChannel channel (Payload.obj props)).snd
          = Payload.obj (stripDangerous props))
    ∧ (allowedChannels.contains channel = false →
        (validateIpcChannel channel (Payload.obj props)).snd = Payload.obj props) := by
  unfold validateIpcChannel
  cases h : allowedChannels.contains channel <;> simp [h]

/-- C4 witness: on the allowlisted channel `get-config`, the dangerous
property is stripped and the rest of the payload survives. -/
theorem C4_witness :
    allowedChannels.contains "get-config" = true
    ∧ (validateIpcChannel "get-config" (Payload.obj [("__proto__", "x"), ("a", "b")])).snd
        = Payload.obj (stripDangerous [("__proto__", "x"), ("a", "b")])
    ∧ stripDangerous [("__proto__", "x"), ("a", "b")] = [("a", "b")] :=
  ⟨rfl, (C4_holds "get-config" [("__proto__", "x"), ("a", "b")]).2.1 rfl, rfl⟩

/-! ## Claim C5 -/

/-- C5: `validateIpcChannel` returns true exactly when the channel is a member
of the static allowlist, and for any channel on which it returns false the
wrapped `ipcMain.on` handler is never executed (the wrapper yields none
without invoking it). -/
theorem C5_holds (channel : String) (payload : Payload) :
    ((validateIpcChannel channel payload).fst = allowedChannels.contains channel)
    ∧ (allowedChannels.contains channel = false →
        ∀ (α : Type) (handler : Payload → α), wrappedOn handler channel payload = none) := by
  constructor
  · unfold validateIpcChannel
    cases h : allowedChannels.contains channel <;> cases payload <;> simp [h]
  · intro h α handler
    have h2 : ¬ (channel ∈ allowedChannels) := by simpa using h
    unfold wrappedOn validateIpcChannel
    simp [h2]

/-- C5 witness: the channel `evil-channel` of spec scenario E is rejected and
no handler runs. -/
theorem C5_witness :
    allowedChannels.contains "evil-channel" = false
    ∧ wrappedOn (fun p => p) "evil-channel" (Payload.prim "hi") = none :=
  ⟨rfl, (C5_holds "evil-channel" (Payload.prim "hi")).2 rfl Payload (fun p => p)⟩

/-! ## Claim C6 -/

/-- C6 counterexample: a second `show` call arriving while the first flow is
still awaiting its catalog fetch (so the picker window does not exist yet)
passes the window guard and overwrites the callback registration: after the
two calls the registered callback is 2, and in the completed run callback 1 is
never invoked (only callback 2 resolves, with null for the empty catalog). -/
theorem C6_counterexample :
    runOutcomes Variant.v2 [Ev.showCall 1] = some (some 1, [])
    ∧ runOutcomes Variant.v2 [Ev.showCall 1, Ev.showCall 2] = some (some 2, [])
    ∧ runOutcomes Variant.v2 [Ev.showCall 1, Ev.showCall 2, Ev.fetchOk [], Ev.fetchOk []]
        = some (none, [(2, CallbackArg.nullArg)]) :=
  ⟨rfl, rfl, rfl⟩

/-- C6 amended: the re-entrancy guard of `show` is on the picker window, not
on the pending callback: whenever the picker window of an earlier flow exists,
a second `show` call is a pure refocus — the state (including the original
callback registration) is unchanged and no invocation occurs, so the original
flow resolves unaffected.  (A `show` call arriving before the picker exists,
during the catalog fetch, instead overwrites the registration, as the
counterexample shows.) -/
theorem C6_holds (v : Variant) (st : SelState) (w : Win) (cb2 : Nat)
    (hpw : st.pickerWindow = some w) :
    step v st (Ev.showCall cb2) = Except.ok (st, []) := by
  simp [step, hpw]

/-- C6 witness: the amended statement at a concrete open-picker state. -/
theorem C6_witness :
    ((⟨some ⟨false⟩, some 1, [sampleScreen], true, 0⟩ : SelState).pickerWindow = some ⟨false⟩)
    ∧ step Variant.v2 ⟨some ⟨false⟩, some 1, [sampleScreen], true, 0⟩ (Ev.showCall 2)
        = Except.ok (⟨some ⟨false⟩, some 1, [sampleScreen], true, 0⟩, []) :=
  ⟨rfl, C6_holds Variant.v2 ⟨some ⟨false⟩, some 1, [sampleScreen], true, 0⟩ ⟨false⟩ 2 rfl⟩

/-! ## Claim C7 -/

/-- C7: in both revisions, when the awaited catalog fetch returns zero entries
or rejects, the pending callback is resolved with null and no picker window is
constructed (the picker field stays empty). -/
theorem C7_holds (v : Variant) (st : SelState) (cb : Nat)
    (hf : st.fetching ≠ 0) (hcb : st.currentCallback = some cb)
    (hpw : st.pickerWindow = none) :
    (step v st (Ev.fetchOk [])
        = Except.ok
            (clearState { st with fetching := st.fetching - 1, sources := ([] : List Source) },
             [⟨cb, CallbackArg.nullArg,
                clearState { st with fetching := st.fetching - 1, sources := ([] : List Source) }⟩])
      ∧ (clearState { st with fetching := st.fetching - 1, sources := ([] : List Source) }).pickerWindow = none)
    ∧ (step v st Ev.fetchErr
        = Except.ok (clearState { st with fetching := st.fetching - 1 },
             [⟨cb, CallbackArg.nullArg, clearState { st with fetching := st.fetching - 1 }⟩])
      ∧ (clearState { st with fetching := st.fetching - 1 }).pickerWindow = none) := by
  refine ⟨⟨?_, by simp [clearState, hpw]⟩, ⟨?_, by simp [clearState, hpw]⟩⟩
  · simp only [step, hf, if_false]
    rw [handleSelectionE_pending _ _ cb (by simpa using hcb)]
    rfl
  · simp only [step, hf, if_false]
    rw [handleSelectionE_pending _ _ cb (by simpa using hcb)]
    rfl

/-- C7 witness: the statement at a concrete mid-fetch state. -/
theorem C7_witness :
    ((⟨none, some 3, [sampleScreen], true, 1⟩ : SelState).fetching ≠ 0)
    ∧ step Variant.v1 ⟨none, some 3, [sampleScreen], true, 1⟩ (Ev.fetchOk [])
        = Except.ok (clearState ⟨none, some 3, ([] : List Source), true, 0⟩,
            [⟨3, CallbackArg.nullArg, clearState ⟨none, some 3, ([] : List Source), true, 0⟩⟩])
    ∧ step Variant.v1 ⟨none, some 3, [sampleScreen], true, 1⟩ Ev.fetchErr
        = Except.ok (clearState ⟨none, some 3, [sampleScreen], true, 0⟩,
            [⟨3, CallbackArg.nullArg, clearState ⟨none, some 3, [sampleScreen], true, 0⟩⟩]) :=
  ⟨by decide,
   (C7_holds Variant.v1 ⟨none, some 3, [sampleScreen], true, 1⟩ 3 (by decide) rfl rfl).1.1,
   (C7_holds Variant.v1 ⟨none, some 3, [sampleScreen], true, 1⟩ 3 (by decide) rfl rfl).2.1⟩

/-! ## Claim C8 -/

/-- Updating a key in the requests map makes lookup on that key return the new
record. -/
theorem alistGet_set_self (k : String) (v : RateRecord)
    (l : List (String × RateRecord)) : alistGet k (alistSet k v l) = some v := by
  induction l with
  | nil => simp [alistGet, alistSet]
  | cons kv rest ih =>
      by_cases h : kv.fst = k
      · simp [alistSet, alistGet, h]
      · simp [alistSet, alistGet, h, ih]

/-- Splitting a call sequence: the limiter state threads through. -/
theorem runCalls_append (sid : Nat) (ch : String) (l1 : List Nat) :
    ∀ (l2 : List Nat) (rl : IPCRateLimiter),
      runCalls sid ch rl (l1 ++ l2)
        = ((runCalls sid ch rl l1).fst
             ++ (runCalls sid ch (runCalls sid ch rl l1).snd l2).fst,
           (runCalls sid ch (runCalls sid ch rl l1).snd l2).snd) := by
  induction l1 with
  | nil => intro l2 rl; simp [runCalls]
  | cons t l1 ih => intro l2 rl; simp [runCalls, ih]

/-- Within the window: starting from a record below the cap, a run of calls
whose timestamps have not passed the reset time is fully allowed, and the
count advances by the number of calls while the reset time stays fixed. -/
theorem runCalls_within (sid : Nat) (ch : String) (ts : List Nat) :
    ∀ (rl : IPCRateLimiter) (c r : Nat),
      rl.windowLimit = 100 →
      alistGet (rateKey sid ch) rl.requests = some ⟨c, r⟩ →
      (∀ t ∈ ts, t ≤ r) →
      c + ts.length ≤ 100 →
      (runCalls sid ch rl ts).fst = List.replicate ts.length true
      ∧ (runCalls sid ch rl ts).snd.windowLimit = 100
      ∧ alistGet (rateKey sid ch) (runCalls sid ch rl ts).snd.requests
          = some ⟨c + ts.length, r⟩ := by
  induction ts with
  | nil =>
      intro rl c r hl hget hin hle
      exact ⟨rfl, hl, by simpa using hget⟩
  | cons t ts ih =>
      intro rl c r hl hget hin hle
      have hlen1 : c + ts.length + 1 ≤ 100 := by
        have := hle
        simp only [List.length_cons] at this
        omega
      have hc : ¬ (rl.windowLimit ≤ c) := by rw [hl]; omega
      have hnr : ¬ (r < t) := by
        have := hin t (List.mem_cons_self t ts)
        omega
      have hstep : rl.isAllowed t sid ch
          = (true, { rl with
              requests := alistSet (rateKey sid ch) ⟨c + 1, r⟩ rl.requests }) := by
        simp only [IPCRateLimiter.isAllowed]
        rw [hget]
        simp [hnr, hc]
      have hrec := ih { rl with
          requests := alistSet (rateKey sid ch) ⟨c + 1, r⟩ rl.requests }
        (c + 1) r hl (alistGet_set_self _ _ _)
        (fun u hu => hin u (List.mem_cons_of_mem t hu)) (by omega)
      have harith : c + (ts.length + 1) = c + 1 + ts.length := by omega
      simp only [runCalls, hstep, List.length_cons, List.replicate_succ, harith]
      exact ⟨by simp [hrec.1], hrec.2.1, hrec.2.2⟩

/-- C8: for a sender/channel pair with no prior record, 100 calls within one
window are all allowed, the 101st call still inside the window is rejected,
and a later call strictly past the reset time is allowed again (the counter
resets). -/
theorem C8_holds (senderId : Nat) (channel : String)
    (reqs : List (String × RateRecord))
    (h0 : alistGet (rateKey senderId channel) reqs = none)
    (ts : List Nat) (t0 t100 tReset : Nat)
    (hlen : ts.length = 99)
    (hts : ∀ t ∈ ts, t ≤ t0 + 60000)
    (h100 : t100 ≤ t0 + 60000)
    (hReset : t0 + 60000 < tReset) :
    (runCalls senderId channel ⟨reqs, 100, 60000⟩
        (t0 :: (ts ++ [t100, tReset]))).fst
      = List.replicate 100 true ++ [false, true] := by
  have hstep0 : (⟨reqs, 100, 60000⟩ : IPCRateLimiter).isAllowed t0 senderId channel
      = (true, ⟨alistSet (rateKey senderId channel) ⟨1, t0 + 60000⟩ reqs, 100, 60000⟩) := by
    simp only [IPCRateLimiter.isAllowed]
    rw [h0]
  have hmid := runCalls_within senderId channel ts
      ⟨alistSet (rateKey senderId channel) ⟨1, t0 + 60000⟩ reqs, 100, 60000⟩
      1 (t0 + 60000) rfl (alistGet_set_self _ _ _) hts (by omega)
  obtain ⟨hres, hwl, hget⟩ := hmid
  simp only [runCalls, hstep0]
  rw [runCalls_append]
  rw [hres]
  -- the state after the first 100 calls holds the record (100, t0 + 60000)
  have hget100 : alistGet (rateKey senderId channel)
      (runCalls senderId channel
        ⟨alistSet (rateKey senderId channel) ⟨1, t0 + 60000⟩ reqs, 100, 60000⟩ ts).snd.requests
      = some ⟨1 + ts.length, t0 + 60000⟩ := hget
  rw [hlen] at hget100
  -- the rejected 101st call leaves the state unchanged
  have hstep101 : (runCalls senderId channel
        ⟨alistSet (rateKey senderId channel) ⟨1, t0 + 60000⟩ reqs, 100, 60000⟩ ts).snd.isAllowed
        t100 senderId channel
      = (false, (runCalls senderId channel
          ⟨alistSet (rateKey senderId channel) ⟨1, t0 + 60000⟩ reqs, 100, 60000⟩ ts).snd) := by
    simp only [IPCRateLimiter.isAllowed]
    rw [hget100]
    have hnr : ¬ (t0 + 60000 < t100) := by omega
    simp [hnr, hwl]
  have hstepReset : (runCalls senderId channel
        ⟨alistSet (rateKey senderId channel) ⟨1, t0 + 60000⟩ reqs, 100, 60000⟩ ts).snd.isAllowed
        tReset senderId channel
      = (true, { (runCalls senderId channel
            ⟨alistSet (rateKey senderId channel) ⟨1, t0 + 60000⟩ reqs, 100, 60000⟩ ts).snd with
          requests := alistSet (rateKey senderId channel)
            ⟨1, tReset + (runCalls senderId channel
              ⟨alistSet (rateKey senderId channel) ⟨1, t0 + 60000⟩ reqs, 100, 60000⟩ ts).snd.windowMs⟩
            (runCalls senderId channel
              ⟨alistSet (rateKey senderId channel) ⟨1, t0 + 60000⟩ reqs, 100, 60000⟩ ts).snd.requests }) := by
    simp only [IPCRateLimiter.isAllowed]
    rw [hget100]
    simp [hReset]
  simp only [runCalls, hstep101, hstepReset]
  rw [hlen]
  rfl

/-- C8 witness: 101 calls at time 0 by sender 1 on `trigger-screen-share`
starting from an empty map, then one call at time 60001: the first 100 are
allowed, the 101st is rejected, the post-window call is allowed. -/
theorem C8_witness :
    alistGet (rateKey 1 "trigger-screen-share") [] = none
    ∧ (List.replicate 99 0).length = 99
    ∧ (runCalls 1 "trigger-screen-share" ⟨[], 100, 60000⟩
          (0 :: (List.replicate 99 0 ++ [0, 60001]))).fst
        = List.replicate 100 true ++ [false, true] := by
  refine ⟨rfl, by simp, ?_⟩
  exact C8_holds 1 "trigger-screen-share" [] rfl (List.replicate 99 0) 0 0 60001
    (by simp)
    (by intro t ht; rw [List.eq_of_mem_replicate ht]; omega)
    (by omega) (by omega)

/-! ## Claim C9 -/

/-- C9: resolution and teardown are idempotent.  From any state, a
`handleSelection` call succeeds without error; a second `handleSelection`
call (with any message) and a `cancel` call on the resulting state perform no
further invocation and raise no error; and the guarded picker close succeeds
on the resulting state whatever the window (already closed included). -/
theorem C9_holds (st : SelState) (sel sel2 : Option SerializableSource) :
    ∃ st1 outs,
      handleSelectionE st sel = Except.ok (st1, outs)
      ∧ handleSelectionE st1 sel2 = Except.ok (st1, [])
      ∧ cancelE st1 = Except.ok (st1, [])
      ∧ closePickerChecked st1.pickerWindow = Except.ok st1.pickerWindow := by
  cases hcb : st.currentCallback with
  | none =>
      exact ⟨st, [], handleSelectionE_idle st sel hcb,
             handleSelectionE_idle st sel2 hcb,
             handleSelectionE_idle st none hcb,
             closePickerChecked_eq st.pickerWindow⟩
  | some cb =>
      refine ⟨clearState st, _, handleSelectionE_pending st sel cb hcb, ?_, ?_, ?_⟩
      · exact handleSelectionE_idle (clearState st) sel2 rfl
      · exact handleSelectionE_idle (clearState st) none rfl
      · exact closePickerChecked_eq (clearState st).pickerWindow

/-! ## Claim C10 -/

/-- C10: every callback invocation performed by `handleSelection` happens at a
state in which the pending-callback slot and the active-selector reference are
already cleared, so from within the callback a re-entrant `handleSelection`,
`cancel`, or duplicate `source-selected` / `selection-cancelled` message
produces no further invocation. -/
theorem C10_holds (st : SelState) (sel : Option SerializableSource)
    (st1 : SelState) (outs : List Invocation)
    (h : handleSelectionE st sel = Except.ok (st1, outs)) :
    ∀ inv ∈ outs,
      inv.atState.currentCallback = none
      ∧ inv.atState.activeIsThis = false
      ∧ (∀ sel2, handleSelectionE inv.atState sel2 = Except.ok (inv.atState, []))
      ∧ cancelE inv.atState = Except.ok (inv.atState, [])
      ∧ (∀ v sel2, step v inv.atState (Ev.msgSourceSelected sel2)
           = Except.ok (inv.atState, []))
      ∧ (∀ v, step v inv.atState Ev.msgSelectionCancelled
           = Except.ok (inv.atState, [])) := by
  intro inv hmem
  cases hcb : st.currentCallback with
  | none =>
      rw [handleSelectionE_idle st sel hcb] at h
      simp only [Except.ok.injEq, Prod.mk.injEq] at h
      rw [← h.2] at hmem
      simp at hmem
  | some cb =>
      rw [handleSelectionE_pending st sel cb hcb] at h
      simp only [Except.ok.injEq, Prod.mk.injEq] at h
      rw [← h.2] at hmem
      simp at hmem
      subst hmem
      refine ⟨rfl, rfl, ?_, ?_, ?_, ?_⟩
      · intro sel2
        exact handleSelectionE_idle (clearState st) sel2 rfl
      · exact handleSelectionE_idle (clearState st) none rfl
      · intro v sel2
        simp [step, clearState]
      · intro v
        simp [step, clearState]

/-- C10 witness: the statement at a concrete pending state, for the recorded
invocation of the concrete call. -/
theorem C10_witness :
    handleSelectionE ⟨some ⟨false⟩, some 7, [sampleScreen], true, 0⟩ none
      = Except.ok (⟨some ⟨false⟩, none, [sampleScreen], false, 0⟩,
          [⟨7, CallbackArg.nullArg, ⟨some ⟨false⟩, none, [sampleScreen], false, 0⟩⟩])
    ∧ (⟨some ⟨false⟩, none, [sampleScreen], false, 0⟩ : SelState).currentCallback = none
    ∧ handleSelectionE ⟨some ⟨false⟩, none, [sampleScreen], false, 0⟩ (some badSel)
        = Except.ok (⟨some ⟨false⟩, none, [sampleScreen], false, 0⟩, [])
    ∧ step Variant.v2 ⟨some ⟨false⟩, none, [sampleScreen], false, 0⟩
        (Ev.msgSourceSelected badSel)
        = Except.ok (⟨some ⟨false⟩, none, [sampleScreen], false, 0⟩, []) := by
  have h := C10_holds ⟨some ⟨false⟩, some 7, [sampleScreen], true, 0⟩ none
      ⟨some ⟨false⟩, none, [sampleScreen], false, 0⟩
      [⟨7, CallbackArg.nullArg, ⟨some ⟨false⟩, none, [sampleScreen], false, 0⟩⟩] rfl
      ⟨7, CallbackArg.nullArg, ⟨some ⟨false⟩, none, [sampleScreen], false, 0⟩⟩
      (List.mem_singleton.mpr rfl)
  exact ⟨rfl, h.1, h.2.2.1 (some badSel), h.2.2.2.2.1 Variant.v2 badSel⟩

end MsWrappers
